import Mathlib

/-!
Verification of the tensorflow-onnx conversion core against its source.

The definitions below are a shallow embedding of the repository's Python
sources:

* `src/tf2onnx/onnx_opset/common.py` — `BroadcastOp.version_4` / `version_7`
* `src/tf2onnx/custom_opsets/onnx_ml.py` — `LookupTableFind.version_8`,
  `LookupTableSize.version_1`
* `src/tf2onnx/convert.py` — `_convert_common`

Graphs are modelled as lists of nodes with side maps for tensor shapes and
dtypes, mirroring the tf2onnx `Graph` object.  Python exceptions raised by
`utils.make_sure` are modelled as `HResult.err` with the formatted message;
other Python runtime failures (attribute or index errors on malformed
graphs) are modelled as `HResult.crash`, and a non-terminating Identity
walk as well (it is shown unreachable on acyclic graphs).
-/

/-- Scalar tensor payloads occurring in the lookup-table handlers: the keys
are strings and the values 64-bit integers; default values read via
`get_tensor_value` are one of the two.  The folding path of the source
handles scalar keys and defaults, which this type captures. -/
inductive TValue where
  | str : String → TValue
  | int : Int → TValue
deriving DecidableEq, Repr

/-- Attribute values as used by the embedded handlers (a closed subset of
the ONNX attribute kinds). -/
inductive AttrValue where
  | aInt : Int → AttrValue
  | aStr : String → AttrValue
  | aIntList : List Int → AttrValue
  | aStrList : List String → AttrValue
  | aTensor : TValue → AttrValue
deriving DecidableEq, Repr

/-- A graph node: operation kind (`type`), unique name, ordered input and
output tensor identifiers, domain tag, and an attribute bag. -/
structure Node where
  name : String
  type : String
  domain : String := ""
  input : List String := []
  output : List String := []
  attrs : List (String × AttrValue) := []
deriving DecidableEq, Repr

/-- A graph: the node list plus shape and dtype side maps keyed by tensor
identifier (a shape may be recorded as unknown, i.e. `none`). -/
structure Graph where
  nodes : List Node := []
  shapes : List (String × Option (List Int)) := []
  dtypes : List (String × Nat) := []
deriving DecidableEq, Repr

/-- `TensorProto.INT64` numeric code. -/
def TensorProtoINT64 : Nat := 7

/-- `TensorProto.STRING` numeric code. -/
def TensorProtoSTRING : Nat := 8

/-- `node.is_const()`: the node is a constant node. -/
def Node.isConst (n : Node) : Bool := n.type == "Const"

/-- Attribute lookup, `node.get_attr_value(key)`. -/
def Node.getAttr (n : Node) (k : String) : Option AttrValue :=
  (n.attrs.find? (fun p => p.1 == k)).map (fun p => p.2)

/-- `node.get_attr_value("shared_name")`, expected to be a string. -/
def Node.sharedName (n : Node) : Option String :=
  match n.getAttr "shared_name" with
  | some (.aStr s) => some s
  | _ => none

/-- `node.get_tensor_value()` of a constant node (its `value` attribute). -/
def Node.constValue (n : Node) : Option TValue :=
  match n.getAttr "value" with
  | some (.aTensor v) => some v
  | _ => none

/-- `node.set_attr(key, value)`: overriding attribute update. -/
def Node.setAttr (n : Node) (k : String) (v : AttrValue) : Node :=
  { n with attrs := (k, v) :: n.attrs.filter (fun p => p.1 != k) }

/-- Producer lookup: the node whose outputs contain tensor `t`. -/
def Graph.findNodeByOutput (g : Graph) (t : String) : Option Node :=
  g.nodes.find? (fun n => n.output.contains t)

/-- `node.inputs[i]`: the producer of the i-th input tensor. -/
def nodeInput (g : Graph) (n : Node) (i : Nat) : Option Node :=
  match n.input[i]? with
  | none => none
  | some t => g.findNodeByOutput t

/-- `ctx.get_dtype(tensor)`. -/
def Graph.getDtype (g : Graph) (t : String) : Option Nat :=
  (g.dtypes.find? (fun p => p.1 == t)).map (fun p => p.2)

/-- `ctx.get_shape(tensor)`: `none` both for an absent entry and for an
explicitly unknown shape. -/
def Graph.getShape (g : Graph) (t : String) : Option (List Int) :=
  match g.shapes.find? (fun p => p.1 == t) with
  | some p => p.2
  | none => none

/-- `ctx.remove_node(name)`. -/
def Graph.removeNode (g : Graph) (name : String) : Graph :=
  { g with nodes := g.nodes.filter (fun n => n.name != name) }

/-- `ctx.find_output_consumers(tensor)`. -/
def Graph.findOutputConsumers (g : Graph) (t : String) : List Node :=
  g.nodes.filter (fun n => n.input.contains t)

/-- Record a shape for a tensor. -/
def Graph.setShape (g : Graph) (t : String) (s : Option (List Int)) : Graph :=
  { g with shapes := (t, s) :: g.shapes.filter (fun p => p.1 != t) }

/-- Record a dtype for a tensor. -/
def Graph.setDtype (g : Graph) (t : String) (d : Nat) : Graph :=
  { g with dtypes := (t, d) :: g.dtypes.filter (fun p => p.1 != t) }

/-- Append a node to the graph. -/
def Graph.addNode (g : Graph) (n : Node) : Graph :=
  { g with nodes := g.nodes ++ [n] }

/-- `ctx.make_node(...)` with explicit outputs: appends the node and
records the supplied shapes and dtypes for its outputs. -/
def Graph.makeNode (g : Graph) (n : Node) (shps : List (Option (List Int)))
    (dts : List Nat) : Graph :=
  let g1 := g.addNode n
  let g2 := (n.output.zip shps).foldl (fun a p => a.setShape p.1 p.2) g1
  (n.output.zip dts).foldl (fun a p => a.setDtype p.1 p.2) g2

/-- dtype of a scalar payload, as `numpy_helper` would record it. -/
def TValue.dtypeOf : TValue → Nat
  | .int _ => TensorProtoINT64
  | .str _ => TensorProtoSTRING

/-- The node built by `ctx.make_const(name, value)`: a `Const` node whose
single output is `name:0` (the tf2onnx default port name). -/
def constNodeOf (name : String) (v : TValue) : Node :=
  { name := name, type := "Const", input := [], output := [name ++ ":0"],
    attrs := [("value", .aTensor v)] }

/-- `ctx.make_const(name, value)`: appends the constant node (scalar, so
its recorded shape is `[]`) and returns it together with the new graph. -/
def Graph.makeConst (g : Graph) (name : String) (v : TValue) : Graph × Node :=
  let n := constNodeOf name v
  (g.makeNode n [some []] [v.dtypeOf], n)

/-- `ctx.replace_all_inputs(old, new)`: rewires every consumer. -/
def Graph.replaceAllInputs (g : Graph) (oldT newT : String) : Graph :=
  { g with nodes := g.nodes.map (fun n =>
      { n with input := n.input.map (fun t => if t == oldT then newT else t) }) }

/-! ## BroadcastOp (onnx_opset/common.py) -/

/-- Python truthiness of a shape: `None` and `[]` are falsy. -/
def shapeTruthy : Option (List Int) → Bool
  | some (_ :: _) => true
  | _ => false

/-- `len(shape)` under the guard that the shape is truthy. -/
def shapeLen (s : Option (List Int)) : Nat := (s.getD []).length

/-- The rs4 scalar workaround of `BroadcastOp` (common.py lines 33-38 and
56-61): when the recorded shape is falsy and the producing node is a
constant, `scalar_to_dim1` promotes the scalar to shape `[1]`.  A missing
producer (`node.inputs[i]` is `None`) is a Python attribute error, modelled
as the outer `none`. -/
def rs4AdjustShape (g : Graph) (node : Node) (i : Nat)
    (shape : Option (List Int)) : Option (Option (List Int)) :=
  if shapeTruthy shape then some shape
  else
    match nodeInput g node i with
    | none => none
    | some p => if p.isConst then some (some [1]) else some shape

/-- The shape actually compared by the swap condition: the raw shape, or
the rs4-adjusted one when the rs4 target workaround is active. -/
def adjustedShape (g : Graph) (node : Node) (rs4 : Bool) (i : Nat)
    (shape : Option (List Int)) : Option (Option (List Int)) :=
  if rs4 then rs4AdjustShape g node i shape else some shape

/-- Swap of the first two inputs (common.py lines 40-42 and 63-65). -/
def swapFirstTwoInputs (n : Node) : Node :=
  match n.input with
  | a :: b :: rest => { n with input := b :: a :: rest }
  | l => { n with input := l }

/-- `BroadcastOp.version_4` (common.py lines 22-44): sets the `broadcast`
attribute and possibly swaps the inputs of Mul/Add when the first rank is
smaller.  `rs4` is `ctx.is_target(constants.TARGET_RS4)`. -/
def broadcastVersion4 (g : Graph) (rs4 : Bool) (node : Node) : Option Node :=
  let shape0 := g.getShape (node.input.getD 0 "")
  let shape1 := g.getShape (node.input.getD 1 "")
  if shape0 ≠ shape1 then
    let n1 := node.setAttr "broadcast" (.aInt 1)
    match adjustedShape g node rs4 0 shape0, adjustedShape g node rs4 1 shape1 with
    | some s0, some s1 =>
      if shapeTruthy s0 && shapeTruthy s1 && decide (shapeLen s0 < shapeLen s1)
          && (node.type == "Mul" || node.type == "Add") then
        some (swapFirstTwoInputs n1)
      else some n1
    | _, _ => none
  else some (node.setAttr "broadcast" (.aInt 0))

/-- `BroadcastOp.version_7` (common.py lines 46-65): same input swap, no
`broadcast` attribute. -/
def broadcastVersion7 (g : Graph) (rs4 : Bool) (node : Node) : Option Node :=
  let shape0 := g.getShape (node.input.getD 0 "")
  let shape1 := g.getShape (node.input.getD 1 "")
  if shape0 ≠ shape1 then
    match adjustedShape g node rs4 0 shape0, adjustedShape g node rs4 1 shape1 with
    | some s0, some s1 =>
      if shapeTruthy s0 && shapeTruthy s1 && decide (shapeLen s0 < shapeLen s1)
          && (node.type == "Mul" || node.type == "Add") then
        some (swapFirstTwoInputs node)
      else some node
    | _, _ => none
  else some node

/-! ## The Identity-chain walk (onnx_ml.py lines 30-32 and 77-79) -/

/-- Outcome of the `while table_node.type == 'Identity'` walk. -/
inductive WalkResult where
  | found : Node → WalkResult
  | missingProducer : WalkResult
  | outOfFuel : WalkResult
deriving DecidableEq, Repr

/-- The Identity-chain walk: repeatedly replace the current node by the
producer of its first input while its kind is `Identity`.  The source loop
has no bound; the `fuel` parameter makes the model total, and `outOfFuel`
marks the runs on which the source would not terminate (shown unreachable
on acyclic graphs).  A missing first input or producer is a Python runtime
error, `missingProducer`. -/
def walkIdentity (g : Graph) : Nat → Node → WalkResult
  | 0, n => if n.type == "Identity" then .outOfFuel else .found n
  | fuel + 1, n =>
    if n.type == "Identity" then
      match n.input[0]? with
      | none => .missingProducer
      | some t =>
        match g.findNodeByOutput t with
        | none => .missingProducer
        | some p => walkIdentity g fuel p
    else .found n

/-! ## The lookup-table handlers (custom_opsets/onnx_ml.py) -/

/-- Result of running a handler: a rewritten graph, a `utils.make_sure`
error carrying the formatted message, or another Python runtime failure
(`crash`, which also stands for the non-terminating Identity walk). -/
inductive HResult where
  | ok : Graph → HResult
  | err : String → HResult
  | crash : HResult
deriving DecidableEq, Repr

/-- The initialized-table side data: shared name to parallel key/value
sequences. -/
abbrev InitTables := List (String × List String × List Int)

/-- Dictionary lookup in the side data (`initialized_tables[name]`). -/
def tablesGet (ts : InitTables) (k : String) : Option (List String × List Int) :=
  (ts.find? (fun p => p.1 == k)).map (fun p => p.2)

/-- `dict(zip(cats_strings, cats_int64s)).get(key, default_val)`: a later
binding of a duplicated key overrides an earlier one, exactly as the
Python dict construction does; a non-string key misses every entry. -/
def dictZipGet (ks : List String) (vs : List Int) (key : TValue)
    (dflt : TValue) : TValue :=
  match key with
  | .str s =>
    match ((ks.zip vs).reverse.find? (fun p => p.1 == s)) with
    | some p => .int p.2
    | none => dflt
  | .int _ => dflt

/-- The constant node that replaces a folded lookup (onnx_ml.py line 60):
same name, the original outputs, the looked-up value as its tensor. -/
def foldedConstNode (node : Node) (v : TValue) : Node :=
  { name := node.name, type := "Const", input := [], output := node.output,
    attrs := [("value", .aTensor v)] }

/-- The `CategoryMapper` node emitted for a non-constant key (onnx_ml.py
lines 64-67): `ai.onnx.ml` domain, the key tensor as sole input, the
original outputs, and the full table plus default as attributes. -/
def categoryMapperNode (node : Node) (keyTensor : String) (ks : List String)
    (vs : List Int) (dv : TValue) : Node :=
  { name := node.name, type := "CategoryMapper", domain := "ai.onnx.ml",
    input := [keyTensor], output := node.output,
    attrs := [("cats_int64s", .aIntList vs), ("cats_strings", .aStrList ks),
              ("default_int64", match dv with | .int i => .aInt i | .str s => .aStr s)] }

/-- The trailing cleanup shared by both handlers (onnx_ml.py lines 69-71
and 92-94): remove the table-producing node exactly when its output has no
remaining consumers. -/
def pruneTableNode (g : Graph) (tableNode : Node) : HResult :=
  match tableNode.output[0]? with
  | none => .crash
  | some t =>
    .ok (if (g.findOutputConsumers t).isEmpty then g.removeNode tableNode.name else g)

/-- `LookupTableFind.version_8` (onnx_ml.py lines 28-71). -/
def lookupTableFindV8 (tables : InitTables) (g : Graph) (node : Node) : HResult :=
  match nodeInput g node 0 with
  | none => .crash
  | some tn0 =>
  match walkIdentity g g.nodes.length tn0 with
  | .missingProducer => .crash
  | .outOfFuel => .crash
  | .found tableNode =>
  match tableNode.sharedName with
  | none => .err ("Could not determine table shared name for node " ++ node.name)
  | some sharedName =>
  match tablesGet tables sharedName with
  | none => .err ("Initialized table " ++ sharedName ++ " for node " ++ node.name ++ " not found.")
  | some cats =>
  match nodeInput g node 2 with
  | none => .crash
  | some defaultNode =>
  if defaultNode.isConst then
    match defaultNode.constValue with
    | none => .crash
    | some defaultVal =>
      match node.output[0]? with
      | none => .crash
      | some out0 =>
      match node.input[1]? with
      | none => .crash
      | some in1 =>
      if g.getDtype out0 == some TensorProtoINT64 && g.getDtype in1 == some TensorProtoSTRING then
        let catsStrings := cats.1
        let catsInt64s := cats.2
        let shape := g.getShape out0
        match nodeInput g node 1 with
        | none => .crash
        | some keyNode =>
          if keyNode.isConst then
            match keyNode.constValue with
            | none => .crash
            | some key =>
              let g1 := g.removeNode node.name
              let lookupVal := dictZipGet catsStrings catsInt64s key defaultVal
              let g2 := g1.makeNode (foldedConstNode node lookupVal) [some []] [TensorProtoINT64]
              pruneTableNode g2 tableNode
          else
            let g1 := g.removeNode node.name
            let g2 := g1.makeNode (categoryMapperNode node in1 catsStrings catsInt64s defaultVal)
                        [shape] [TensorProtoINT64]
            pruneTableNode g2 tableNode
      else .err "Only lookup tables of type string->int64 are currently supported."
  else .err "Default value of table lookup must be const."

/-- `LookupTableSize.version_1` (onnx_ml.py lines 76-94). -/
def lookupTableSizeV1 (tables : InitTables) (g : Graph) (node : Node) : HResult :=
  match nodeInput g node 0 with
  | none => .crash
  | some tn0 =>
  match walkIdentity g g.nodes.length tn0 with
  | .missingProducer => .crash
  | .outOfFuel => .crash
  | .found tableNode =>
  match tableNode.sharedName with
  | none => .err ("Could not determine table shared name for node " ++ node.name)
  | some sharedName =>
  match tablesGet tables sharedName with
  | none => .err ("Initialized table " ++ sharedName ++ " for node " ++ node.name ++ " not found.")
  | some cats =>
  match node.output[0]? with
  | none => .crash
  | some out0 =>
    let keys := cats.1
    let g1 := g.removeNode node.name
    let gc := g1.makeConst node.name (.int keys.length)
    let g3 := gc.1.replaceAllInputs out0 (gc.2.output.getD 0 "")
    pruneTableNode g3 tableNode

/-! ## Handler registry dispatch -/

/-- Modelled from the spec: the versioned operation-handler registry and
its dispatch algorithm live in `tf2onnx/handler.py`, which is not under
`src/`; only a representative handler (`BroadcastOp`) is.  Per the spec,
dispatch selects, from a kind's ordered list of (minimum target version,
handler) entries, the entry with the greatest minimum version not
exceeding the requested target specification version. -/
def selectStep (v : Nat) : Option (Nat × String) → (Nat × String) → Option (Nat × String)
  | none, e => if e.1 ≤ v then some e else none
  | some b, e => if e.1 ≤ v then (if b.1 ≤ e.1 then some e else some b) else some b

/-- Modelled from the spec: dispatch scans the registered entry list and
keeps the qualifying entry with the greatest minimum version. -/
def selectHandler (entries : List (Nat × String)) (v : Nat) : Option (Nat × String) :=
  entries.foldl (selectStep v) none

/-- Modelled from the spec: registry resolution — a kind with no
registration at all, like one whose every entry exceeds the requested
version, yields no handler and the node is left unconverted. -/
def resolveHandler (registry : List (String × List (Nat × String)))
    (kind : String) (v : Nat) : Option (Nat × String) :=
  match registry.find? (fun p => p.1 == kind) with
  | none => none
  | some p => selectHandler p.2 v

/-! ## _convert_common (convert.py lines 129-174) -/

/-- The keyword arguments `_convert_common` passes to `process_tf_graph`
(convert.py lines 148-164).  External payloads (custom-op handler maps,
compressed constant values, the tflite path, initialized tables) are
carried as opaque data; only their routing matters here. -/
structure ProcessOptions where
  continueOnError : Bool
  target : List String
  opset : Option Nat
  customOpHandlers : List String
  extraOpset : List (String × Nat)
  shapeOverride : List (String × List Int)
  inputNames : List String
  outputNames : List String
  inputsAsNchw : List String
  constNodeValues : Option Nat
  tensorsToRename : List (String × String)
  useDefault : Bool
  dequantize : Bool
  ignoreDefault : Bool
  tflitePath : Option String
  initializedTables : InitTables
deriving DecidableEq

/-- The parameters of `_convert_common` (convert.py lines 129-133) that
feed the conversion (the unused `custom_op_handlers` and `custom_rewriter`
parameters and the pure output-file arguments are omitted; `customOps`
models `custom_ops`, the map actually forwarded). -/
structure ConvertArgs where
  inputNames : List String := []
  outputNames : List String := []
  initializedTables : InitTables := []
  opset : Option Nat := none
  customOps : List String := []
  ignoreDefault : Bool := false
  continueOnError : Bool := false
  inputsAsNchw : List String := []
  extraOpset : List (String × Nat) := []
  shapeOverride : List (String × List Int) := []
  target : List String := []
  tensorsToRename : List (String × String) := []
  largeModel : Bool := false
  useDefault : Bool := false
  dequantize : Bool := false
  tflitePath : Option String := none
deriving DecidableEq

/-- The argument forwarding of `_convert_common` (convert.py lines
148-164), field by field: note `continue_on_error=True` (line 149) and
`ignore_default=False` (line 162) are hardcoded, ignoring the
correspondingly named parameters. -/
def convertCommonProcessOptions (a : ConvertArgs) (constNodeValues : Option Nat) :
    ProcessOptions :=
  { continueOnError := true
    target := a.target
    opset := a.opset
    customOpHandlers := a.customOps
    extraOpset := a.extraOpset
    shapeOverride := a.shapeOverride
    inputNames := a.inputNames
    outputNames := a.outputNames
    inputsAsNchw := a.inputsAsNchw
    constNodeValues := constNodeValues
    tensorsToRename := a.tensorsToRename
    useDefault := a.useDefault
    dequantize := a.dequantize
    ignoreDefault := false
    tflitePath := a.tflitePath
    initializedTables := a.initializedTables }

/-- `_convert_common` (convert.py lines 140-167), parameterized by the
external collaborators it calls: `process_tf_graph`, the optimizer, model
serialization and `compress_graph_def` (all outside `src/`).  In
large-model mode the frozen graph is compressed into `const_node_values`
first; the produced model is the serialization of the optimized processed
graph. -/
def convertCommon {S G M : Type} (processTfGraph : ProcessOptions → S → G)
    (optimizeGraph : G → G) (makeModel : G → M) (compressGraphDef : S → Nat)
    (a : ConvertArgs) (frozenGraph : S) : M :=
  let constNodeValues := if a.largeModel then some (compressGraphDef frozenGraph) else none
  makeModel (optimizeGraph (processTfGraph (convertCommonProcessOptions a constNodeValues) frozenGraph))

/-- A source node as seen by the modelled conversion driver: a name and
the tensors it produces. -/
structure SrcNode where
  name : String
  outs : List String
deriving DecidableEq, Repr

/-- Modelled from the spec: the per-node loop of the conversion driver
(`process_tf_graph` in `tf2onnx/tfonnx.py`, not under `src/`).  A
supported node converts in place; an unsupported one aborts the run
immediately when continue-on-error is inactive, and otherwise is recorded
as a failure and left in its original form. -/
def convertNodes (continueOnError : Bool) (supported : String → Bool) :
    List SrcNode → Except String (List SrcNode × List String)
  | [] => .ok ([], [])
  | n :: rest =>
    if supported n.name then
      match convertNodes continueOnError supported rest with
      | .ok p => .ok (n :: p.1, p.2)
      | .error e => .error e
    else if continueOnError then
      match convertNodes continueOnError supported rest with
      | .ok p => .ok (n :: p.1, n.name :: p.2)
      | .error e => .error e
    else .error n.name

/-- Modelled from the spec: `process_tf_graph` (not under `src/`) runs the
per-node loop and, at completion, fails only if a required output remains
unproduced. -/
def processTfGraphModel (opts : ProcessOptions) (supported : String → Bool)
    (nodes : List SrcNode) : Except String (List SrcNode × List String) :=
  match convertNodes opts.continueOnError supported nodes with
  | .error e => .error e
  | .ok p =>
    if opts.outputNames.all (fun t => p.1.any (fun n => n.outs.contains t)) then .ok p
    else .error "required output not produced"

/-- `_convert_common` instantiated with the spec-modelled driver (the
optimizer and serialization collaborators are the identity, which cannot
mask conversion failures). -/
def convertCommonRun (supported : String → Bool) (a : ConvertArgs)
    (nodes : List SrcNode) : Except String (List SrcNode × List String) :=
  convertCommon (fun opts g => processTfGraphModel opts supported g) id id (fun _ => 0) a nodes

/-! ## Structural invariants -/

/-- The acyclic-DAG invariant, rendered through a topological ordering of
the node list: every producer of one of a node's input tensors sits
strictly earlier in the list. -/
def topoOrdered (g : Graph) : Prop :=
  ∀ (i j : Fin g.nodes.length), ∀ t ∈ (g.nodes.get i).input,
    t ∈ (g.nodes.get j).output → (j : Nat) < (i : Nat)

instance (g : Graph) : Decidable (topoOrdered g) := by
  unfold topoOrdered
  infer_instance

/-! ## Example inputs used by witnesses and counterexamples -/

/-- A resource-producing hash-table node carrying the shared name "t1". -/
def exTableNode : Node :=
  { name := "table", type := "HashTableV2", output := ["table:0"],
    attrs := [("shared_name", .aStr "t1")] }

/-- An Identity node forwarding the table resource. -/
def exIdentityNode : Node :=
  { name := "id", type := "Identity", input := ["table:0"], output := ["id:0"] }

/-- A constant key node holding the string "b". -/
def exKeyNode : Node :=
  { name := "key", type := "Const", output := ["key:0"],
    attrs := [("value", .aTensor (.str "b"))] }

/-- A constant key node holding the absent string "z". -/
def exKeyAbsentNode : Node :=
  { name := "key", type := "Const", output := ["key:0"],
    attrs := [("value", .aTensor (.str "z"))] }

/-- A constant default-value node holding the integer 0. -/
def exDefaultNode : Node :=
  { name := "dflt", type := "Const", output := ["dflt:0"],
    attrs := [("value", .aTensor (.int 0))] }

/-- A non-constant key node. -/
def exKeyVarNode : Node :=
  { name := "keyv", type := "Placeholder", output := ["keyv:0"] }

/-- The lookup node of the examples. -/
def exLookupNode : Node :=
  { name := "lookup", type := "LookupTableFindV2",
    input := ["id:0", "key:0", "dflt:0"], output := ["lookup:0"] }

/-- The lookup node with a non-constant key. -/
def exLookupVarNode : Node :=
  { name := "lookup", type := "LookupTableFindV2",
    input := ["id:0", "keyv:0", "dflt:0"], output := ["lookup:0"] }

/-- The side data of the examples: table "t1" maps "a" to 1 and "b" to 2. -/
def exTables : InitTables := [("t1", (["a", "b"], [1, 2]))]

/-- Example graph: a lookup of constant key "b" in table "t1". -/
def exFindGraph : Graph :=
  { nodes := [exTableNode, exIdentityNode, exKeyNode, exDefaultNode, exLookupNode],
    shapes := [("lookup:0", some [])],
    dtypes := [("lookup:0", 7), ("key:0", 8)] }

/-- Example graph: the same lookup with the absent constant key "z". -/
def exFindAbsentGraph : Graph :=
  { nodes := [exTableNode, exIdentityNode, exKeyAbsentNode, exDefaultNode, exLookupNode],
    shapes := [("lookup:0", some [])],
    dtypes := [("lookup:0", 7), ("key:0", 8)] }

/-- Example graph: the lookup with a non-constant key. -/
def exFindVarGraph : Graph :=
  { nodes := [exTableNode, exIdentityNode, exKeyVarNode, exDefaultNode, exLookupVarNode],
    shapes := [("lookup:0", some [3])],
    dtypes := [("lookup:0", 7), ("keyv:0", 8)] }

/-- Example graph: a lookup whose output dtype is FLOAT (code 1) rather
than INT64, with every other precondition satisfied. -/
def exFindBadDtypeGraph : Graph :=
  { nodes := [exTableNode, exIdentityNode, exKeyNode, exDefaultNode, exLookupNode],
    shapes := [("lookup:0", some [])],
    dtypes := [("lookup:0", 1), ("key:0", 8)] }

/-- A second bad-dtype example (key input typed FLOAT), used for the C9
witness. -/
def exFindBadKeyDtypeGraph : Graph :=
  { nodes := [exTableNode, exIdentityNode, exKeyNode, exDefaultNode, exLookupNode],
    shapes := [("lookup:0", some [])],
    dtypes := [("lookup:0", 7), ("key:0", 1)] }

/-- The table-size node of the examples. -/
def exSizeNode : Node :=
  { name := "size", type := "LookupTableSizeV2", input := ["id:0"], output := ["size:0"] }

/-- A consumer of the size output. -/
def exSizeConsumerNode : Node :=
  { name := "use", type := "Cast", input := ["size:0"], output := ["use:0"] }

/-- Example graph for the table-size handler. -/
def exSizeGraph : Graph :=
  { nodes := [exTableNode, exIdentityNode, exSizeNode, exSizeConsumerNode] }

/-- A post-conversion graph in which nothing consumes the table
resource any more: the size node has been replaced by its constant. -/
def exAfterSizeGraph : Graph :=
  { nodes := [exTableNode, constNodeOf "size" (.int 2)] }

/-- A scalar constant producer for the broadcast examples. -/
def bcConstNode : Node :=
  { name := "c", type := "Const", output := ["c:0"],
    attrs := [("value", .aTensor (.int 5))] }

/-- A placeholder producer for the broadcast examples. -/
def bcPlaceholderNode : Node :=
  { name := "x", type := "Placeholder", output := ["x:0"] }

/-- The Mul node of the broadcast examples. -/
def bcMulNode : Node :=
  { name := "m", type := "Mul", input := ["c:0", "x:0"], output := ["m:0"] }

/-- Broadcast example graph: input 0 is a constant of empty (scalar)
shape, input 1 has shape [2, 3]. -/
def bcGraph : Graph :=
  { nodes := [bcConstNode, bcPlaceholderNode, bcMulNode],
    shapes := [("c:0", some []), ("x:0", some [2, 3])] }

/-- Broadcast example graph with both ranks known and non-empty. -/
def bcRankGraph : Graph :=
  { nodes := [bcConstNode, bcPlaceholderNode, bcMulNode],
    shapes := [("c:0", some [2]), ("x:0", some [2, 3])] }

/-- The node produced by `BroadcastOp.version_4` on the rank example:
inputs swapped, broadcast attribute set. -/
def bcMulSwapped4 : Node :=
  { name := "m", type := "Mul", input := ["x:0", "c:0"], output := ["m:0"],
    attrs := [("broadcast", .aInt 1)] }

/-- The node produced by `BroadcastOp.version_7` on the rank example:
inputs swapped, no attribute. -/
def bcMulSwapped7 : Node :=
  { name := "m", type := "Mul", input := ["x:0", "c:0"], output := ["m:0"] }

/-- A source node for the conversion-driver examples. -/
def cvNodeA : SrcNode := { name := "a", outs := ["a:0"] }

/-- A second source node for the conversion-driver examples. -/
def cvNodeB : SrcNode := { name := "b", outs := ["b:0"] }

/-- Arguments with continue-on-error inactive. -/
def cvArgsNoContinue : ConvertArgs := { continueOnError := false, outputNames := ["a:0"] }

/-- The registered minimum versions of the dispatch example. -/
def exRegistryEntries : List (Nat × String) := [(4, "h4"), (7, "h7"), (9, "h9")]

/-! ## Lemmas -/


theorem nodes_setShape (g : Graph) (t : String) (s : Option (List Int)) :
    (g.setShape t s).nodes = g.nodes := rfl

theorem nodes_setDtype (g : Graph) (t : String) (d : Nat) :
    (g.setDtype t d).nodes = g.nodes := rfl

theorem nodes_foldl_setShape (l : List (String × Option (List Int))) (g : Graph) :
    (l.foldl (fun a p => a.setShape p.1 p.2) g).nodes = g.nodes := by
  induction l generalizing g with
  | nil => rfl
  | cons p rest ih => simpa using ih (g.setShape p.1 p.2)

theorem nodes_foldl_setDtype (l : List (String × Nat)) (g : Graph) :
    (l.foldl (fun a p => a.setDtype p.1 p.2) g).nodes = g.nodes := by
  induction l generalizing g with
  | nil => rfl
  | cons p rest ih => simpa using ih (g.setDtype p.1 p.2)

theorem nodes_makeNode (g : Graph) (n : Node) (shps : List (Option (List Int)))
    (dts : List Nat) : (g.makeNode n shps dts).nodes = g.nodes ++ [n] := by
  simp [Graph.makeNode, Graph.addNode, nodes_foldl_setShape, nodes_foldl_setDtype]

theorem mem_removeNode {g : Graph} {m : String} {n : Node} :
    n ∈ (g.removeNode m).nodes ↔ n ∈ g.nodes ∧ n.name ≠ m := by
  simp [Graph.removeNode, List.mem_filter]

theorem walkIdentity_zero (g : Graph) (n : Node) :
    walkIdentity g 0 n = if n.type == "Identity" then .outOfFuel else .found n := rfl

theorem walkIdentity_succ (g : Graph) (f : Nat) (n : Node) :
    walkIdentity g (f + 1) n =
      if n.type == "Identity" then
        match n.input[0]? with
        | none => .missingProducer
        | some t =>
          match g.findNodeByOutput t with
          | none => .missingProducer
          | some p => walkIdentity g f p
      else .found n := rfl

theorem walkIdentity_succ_id (g : Graph) (f : Nat) (n : Node) (t : String)
    (hid : n.type == "Identity") (h0 : n.input[0]? = some t) :
    walkIdentity g (f + 1) n =
      match g.findNodeByOutput t with
      | none => .missingProducer
      | some p => walkIdentity g f p := by
  rw [walkIdentity_succ, if_pos hid, h0]

theorem walkIdentity_found_not_identity (g : Graph) :
    ∀ (fuel : Nat) (n m : Node), walkIdentity g fuel n = .found m → m.type ≠ "Identity" := by
  intro fuel
  induction fuel with
  | zero =>
    intro n m h
    by_cases hid : n.type == "Identity"
    · rw [walkIdentity_zero, if_pos hid] at h
      exact absurd h (by simp)
    · rw [walkIdentity_zero, if_neg hid] at h
      cases h
      simpa using hid
  | succ f ih =>
    intro n m h
    by_cases hid : n.type == "Identity"
    · cases h0 : n.input[0]? with
      | none =>
        rw [walkIdentity_succ, if_pos hid] at h
        rw [h0] at h
        exact WalkResult.noConfusion h
      | some t =>
        cases hp : g.findNodeByOutput t with
        | none =>
          rw [walkIdentity_succ_id g f n t hid h0, hp] at h
          exact WalkResult.noConfusion h
        | some p =>
          rw [walkIdentity_succ_id g f n t hid h0, hp] at h
          exact ih p m h
    · rw [walkIdentity_succ, if_neg hid] at h
      cases h
      simpa using hid

theorem walkIdentity_no_fuel_exhaustion (g : Graph) (htopo : topoOrdered g) :
    ∀ (fuel i : Nat) (hi : i < g.nodes.length), i < fuel →
      walkIdentity g fuel (g.nodes.get ⟨i, hi⟩) ≠ .outOfFuel := by
  intro fuel
  induction fuel with
  | zero => intro i hi hlt; exact absurd hlt (Nat.not_lt_zero i)
  | succ f ih =>
    intro i hi hlt
    by_cases hid : (g.nodes.get ⟨i, hi⟩).type == "Identity"
    · cases h0 : (g.nodes.get ⟨i, hi⟩).input[0]? with
      | none => rw [walkIdentity_succ, if_pos hid, h0]; simp
      | some t =>
        cases hp : g.findNodeByOutput t with
        | none =>
          rw [walkIdentity_succ_id g f _ t hid h0, hp]
          simp
        | some p =>
          rw [walkIdentity_succ_id g f _ t hid h0, hp]
          have hp2 : g.nodes.find? (fun n => n.output.contains t) = some p := hp
          have hpmem : p ∈ g.nodes := List.mem_of_find?_eq_some hp2
          have hpcontains := List.find?_some hp2
          obtain ⟨j, hget⟩ := List.mem_iff_get.mp hpmem
          have htin : t ∈ (g.nodes.get ⟨i, hi⟩).input := by
            have hlt0 : 0 < (g.nodes.get ⟨i, hi⟩).input.length := by
              rcases hh : (g.nodes.get ⟨i, hi⟩).input with _ | ⟨a, l⟩
              · rw [hh] at h0; exact absurd h0 (by simp)
              · simp [hh]
            rw [List.getElem?_eq_getElem hlt0] at h0
            cases h0
            exact List.getElem_mem hlt0
          have htout : t ∈ p.output := by
            simpa using hpcontains
          have hji : (j : Nat) < i := by
            have := htopo ⟨i, hi⟩ j t htin (by rw [hget]; exact htout)
            simpa using this
          have hjf : (j : Nat) < f := by omega
          have hres := ih (j : Nat) j.isLt hjf
          rw [show (⟨(j : Nat), j.isLt⟩ : Fin g.nodes.length) = j from rfl, hget] at hres
          exact hres
    · rw [walkIdentity_succ, if_neg hid]; simp

/-- C8: for every graph satisfying the acyclic-DAG invariant (rendered as
a topological ordering of the node list), the Identity-chain walk used by
the LookupTableFindV2 and LookupTableSizeV2 handlers, run with the fuel
the handlers use (the node count), terminates — it never exhausts its
fuel — and when it returns a node, that node is the first ancestor whose
kind is not Identity. -/
theorem walkIdentity_terminates (g : Graph) (n : Node) (htopo : topoOrdered g)
    (hn : n ∈ g.nodes) :
    walkIdentity g g.nodes.length n ≠ .outOfFuel ∧
    ∀ m, walkIdentity g g.nodes.length n = .found m → m.type ≠ "Identity" := by
  obtain ⟨i, hget⟩ := List.mem_iff_get.mp hn
  constructor
  · have h := walkIdentity_no_fuel_exhaustion g htopo g.nodes.length (i : Nat) i.isLt i.isLt
    rw [show (⟨(i : Nat), i.isLt⟩ : Fin g.nodes.length) = i from rfl, hget] at h
    exact h
  · intro m hm
    exact walkIdentity_found_not_identity g _ n m hm

/-- Witness for C8: a concrete topologically ordered graph containing an
Identity chain, on which the walk does not run out of fuel. -/
theorem walkIdentity_terminates_witness :
    topoOrdered exFindGraph ∧ exIdentityNode ∈ exFindGraph.nodes ∧
    walkIdentity exFindGraph exFindGraph.nodes.length exIdentityNode ≠ .outOfFuel :=
  ⟨by decide, by decide,
   (walkIdentity_terminates exFindGraph exIdentityNode (by decide) (by decide)).1⟩

theorem selectStep_qual (v : Nat) (acc : Option (Nat × String)) (e : Nat × String)
    (hacc : ∀ b, acc = some b → b.1 ≤ v) :
    ∀ b, selectStep v acc e = some b → b.1 ≤ v := by
  intro b hb
  cases acc with
  | none =>
    by_cases he : e.1 ≤ v
    · simp only [selectStep, if_pos he, Option.some.injEq] at hb
      subst hb
      exact he
    · simp only [selectStep, if_neg he] at hb
      exact Option.noConfusion hb
  | some b0 =>
    by_cases he : e.1 ≤ v
    · by_cases hle : b0.1 ≤ e.1
      · simp only [selectStep, if_pos he, if_pos hle, Option.some.injEq] at hb
        subst hb
        exact he
      · simp only [selectStep, if_pos he, if_neg hle, Option.some.injEq] at hb
        subst hb
        exact hacc b0 rfl
    · simp only [selectStep, if_neg he, Option.some.injEq] at hb
      subst hb
      exact hacc b0 rfl

theorem selectStep_none_iff (v : Nat) (acc : Option (Nat × String)) (e : Nat × String) :
    selectStep v acc e = none ↔ acc = none ∧ v < e.1 := by
  cases acc with
  | none =>
    by_cases he : e.1 ≤ v
    · simp only [selectStep, if_pos he]
      simp
      omega
    · simp only [selectStep, if_neg he]
      simp
      omega
  | some b0 =>
    by_cases he : e.1 ≤ v
    · by_cases hle : b0.1 ≤ e.1
      · simp only [selectStep, if_pos he, if_pos hle]
        simp
      · simp only [selectStep, if_pos he, if_neg hle]
        simp
    · simp only [selectStep, if_neg he]
      simp

theorem selectStep_some_cases (v : Nat) (acc : Option (Nat × String)) (e b : Nat × String)
    (hb : selectStep v acc e = some b) : acc = some b ∨ (b = e ∧ e.1 ≤ v) := by
  cases acc with
  | none =>
    by_cases he : e.1 ≤ v
    · simp only [selectStep, if_pos he, Option.some.injEq] at hb
      exact Or.inr ⟨hb.symm, he⟩
    · simp only [selectStep, if_neg he] at hb
      exact Option.noConfusion hb
  | some b0 =>
    by_cases he : e.1 ≤ v
    · by_cases hle : b0.1 ≤ e.1
      · simp only [selectStep, if_pos he, if_pos hle, Option.some.injEq] at hb
        exact Or.inr ⟨hb.symm, he⟩
      · simp only [selectStep, if_pos he, if_neg hle, Option.some.injEq] at hb
        exact Or.inl (by rw [hb])
    · simp only [selectStep, if_neg he, Option.some.injEq] at hb
      exact Or.inl (by rw [hb])

theorem selectStep_mono (v : Nat) (acc : Option (Nat × String)) (e b0 b : Nat × String)
    (h0 : acc = some b0) (hb : selectStep v acc e = some b) : b0.1 ≤ b.1 := by
  subst h0
  by_cases he : e.1 ≤ v
  · by_cases hle : b0.1 ≤ e.1
    · simp only [selectStep, if_pos he, if_pos hle, Option.some.injEq] at hb
      subst hb
      exact hle
    · simp only [selectStep, if_pos he, if_neg hle, Option.some.injEq] at hb
      subst hb
      exact le_refl _
  · simp only [selectStep, if_neg he, Option.some.injEq] at hb
    subst hb
    exact le_refl _

theorem selectStep_dom (v : Nat) (acc : Option (Nat × String)) (e b : Nat × String)
    (he : e.1 ≤ v) (hb : selectStep v acc e = some b) : e.1 ≤ b.1 := by
  cases acc with
  | none =>
    simp only [selectStep, if_pos he, Option.some.injEq] at hb
    subst hb
    exact le_refl _
  | some b0 =>
    by_cases hle : b0.1 ≤ e.1
    · simp only [selectStep, if_pos he, if_pos hle, Option.some.injEq] at hb
      subst hb
      exact le_refl _
    · simp only [selectStep, if_pos he, if_neg hle, Option.some.injEq] at hb
      subst hb
      exact Nat.le_of_not_le hle

theorem selectHandler_foldl_spec (v : Nat) :
    ∀ (entries : List (Nat × String)) (acc : Option (Nat × String)),
      (∀ b, acc = some b → b.1 ≤ v) →
      ((entries.foldl (selectStep v) acc = none ↔ acc = none ∧ ∀ e ∈ entries, v < e.1) ∧
       (∀ r, entries.foldl (selectStep v) acc = some r →
          (acc = some r ∨ (r ∈ entries ∧ r.1 ≤ v)) ∧
          (∀ e ∈ entries, e.1 ≤ v → e.1 ≤ r.1) ∧
          (∀ b, acc = some b → b.1 ≤ r.1))) := by
  intro entries
  induction entries with
  | nil =>
    intro acc hacc
    constructor
    · simp
    · intro r hr
      simp only [List.foldl_nil] at hr
      refine ⟨Or.inl hr, by simp, ?_⟩
      intro b hb
      rw [hr] at hb
      cases hb
      exact le_refl _
  | cons e rest ih =>
    intro acc hacc
    have hstep : ∀ b, selectStep v acc e = some b → b.1 ≤ v := selectStep_qual v acc e hacc
    have ihh := ih (selectStep v acc e) hstep
    constructor
    · rw [List.foldl_cons, ihh.1, selectStep_none_iff]
      constructor
      · rintro ⟨⟨h1, h2⟩, h3⟩
        refine ⟨h1, ?_⟩
        intro x hx
        rcases List.mem_cons.mp hx with hxe | hxr
        · rw [hxe]; exact h2
        · exact h3 x hxr
      · rintro ⟨h1, h2⟩
        exact ⟨⟨h1, h2 e (List.mem_cons_self e rest)⟩, fun x hx => h2 x (List.mem_cons_of_mem e hx)⟩
    · intro r hr
      rw [List.foldl_cons] at hr
      obtain ⟨hc1, hc2, hc3⟩ := ihh.2 r hr
      refine ⟨?_, ?_, ?_⟩
      · rcases hc1 with hstepr | ⟨hmem, hle⟩
        · rcases selectStep_some_cases v acc e r hstepr with haccr | ⟨hre, hle⟩
          · exact Or.inl haccr
          · exact Or.inr ⟨by rw [hre]; exact List.mem_cons_self e rest, by rw [hre]; exact hle⟩
        · exact Or.inr ⟨List.mem_cons_of_mem e hmem, hle⟩
      · intro x hx hxv
        rcases List.mem_cons.mp hx with hxe | hxr
        · rw [hxe] at hxv ⊢
          cases hs : selectStep v acc e with
          | none =>
            have hnone := (selectStep_none_iff v acc e).mp hs
            omega
          | some b =>
            have h1 := selectStep_dom v acc e b hxv hs
            have h2 := hc3 b hs
            omega
        · exact hc2 x hxr hxv
      · intro b hb
        cases hs : selectStep v acc e with
        | none =>
          have := (selectStep_none_iff v acc e).mp hs
          rw [this.1] at hb
          cases hb
        | some b1 =>
          have h1 := selectStep_mono v acc e b b1 hb hs
          have h2 := hc3 b1 hs
          omega

/-- C2: dispatch selects, from a kind's registered handler list, the
entry with the greatest minimum version not exceeding the requested
target version; it selects nothing when no entry's minimum version is at
most the requested version, or when the kind has no registration at all;
in particular, for minimum versions 4, 7 and 9 at requested version 8,
the version-7 handler is selected. -/
theorem dispatch_selects_greatest_not_exceeding :
    (∀ (entries : List (Nat × String)) (v : Nat) (r : Nat × String),
       selectHandler entries v = some r →
         r ∈ entries ∧ r.1 ≤ v ∧ ∀ e ∈ entries, e.1 ≤ v → e.1 ≤ r.1) ∧
    (∀ (entries : List (Nat × String)) (v : Nat),
       selectHandler entries v = none ↔ ∀ e ∈ entries, v < e.1) ∧
    (∀ (registry : List (String × List (Nat × String))) (kind : String) (v : Nat),
       registry.find? (fun p => p.1 == kind) = none → resolveHandler registry kind v = none) ∧
    resolveHandler [("K", exRegistryEntries)] "K" 8 = some (7, "h7") := by
  refine ⟨?_, ?_, ?_, by decide⟩
  · intro entries v r hr
    have h := (selectHandler_foldl_spec v entries none (by intro b hb; cases hb)).2 r hr
    rcases h.1 with hnone | ⟨hmem, hle⟩
    · cases hnone
    · exact ⟨hmem, hle, h.2.1⟩
  · intro entries v
    have h := (selectHandler_foldl_spec v entries none (by intro b hb; cases hb)).1
    rw [selectHandler, h]
    simp
  · intro registry kind v hfind
    rw [resolveHandler, hfind]

/-- Witness for C2: the dispatch theorem applied at the example entry
list and requested version 8. -/
theorem dispatch_selects_greatest_not_exceeding_witness :
    selectHandler exRegistryEntries 8 = some (7, "h7") ∧
    (7, "h7") ∈ exRegistryEntries ∧ 7 ≤ 8 := by
  have h := dispatch_selects_greatest_not_exceeding.1 exRegistryEntries 8 (7, "h7") (by decide)
  exact ⟨by decide, h.1, h.2.1⟩

theorem convertNodes_continue (supported : String → Bool) (nodes : List SrcNode) :
    convertNodes true supported nodes =
      .ok (nodes, (nodes.filter (fun n => !(supported n.name))).map SrcNode.name) := by
  induction nodes with
  | nil => rfl
  | cons n rest ih =>
    by_cases hs : supported n.name
    · simp [convertNodes, hs, ih]
    · simp [convertNodes, hs, ih]

/-- Counterexample for C3: `_convert_common` invoked with
`continue_on_error=False` on a graph whose two nodes are both unsupported
does not abort on the first failure — both failures are accumulated and
conversion completes, because the flag forwarded to `process_tf_graph` is
hardcoded to True (convert.py line 149). -/
theorem convertCommon_no_abort_counterexample :
    cvArgsNoContinue.continueOnError = false ∧
    convertCommonRun (fun _ => false) cvArgsNoContinue [cvNodeA, cvNodeB] =
      .ok ([cvNodeA, cvNodeB], ["a", "b"]) := by
  constructor
  · rfl
  · rfl

/-- C3 (amended): `_convert_common` forwards `continue_on_error=True` to
`process_tf_graph` regardless of its own `continue_on_error` argument, so
unsupported-operation failures are always accumulated, the failing nodes
are left in their original form, and conversion fails at completion
exactly when a required output remains unproduced. -/
theorem convertCommon_always_accumulates (supported : String → Bool)
    (a : ConvertArgs) (c : Option Nat) (nodes : List SrcNode) :
    (convertCommonProcessOptions a c).continueOnError = true ∧
    convertCommonRun supported a nodes =
      (if a.outputNames.all (fun t => nodes.any (fun n => n.outs.contains t))
       then .ok (nodes, (nodes.filter (fun n => !(supported n.name))).map SrcNode.name)
       else .error "required output not produced") := by
  constructor
  · rfl
  · show processTfGraphModel (convertCommonProcessOptions a _) supported nodes = _
    rw [processTfGraphModel]
    have hfwd : (convertCommonProcessOptions a
        (if a.largeModel then some 0 else none)).continueOnError = true := rfl
    rw [hfwd, convertNodes_continue]
    rfl

/-- C4: two invocations of `_convert_common` differing only in the
`ignore_default` argument forward `ignore_default=False` to
`process_tf_graph` in both runs (convert.py line 162) and produce the
identical model: the CLI-computed flag has no effect on the output. -/
theorem convertCommon_ignoreDefault_no_effect {S G M : Type}
    (processTfGraph : ProcessOptions → S → G) (optimizeGraph : G → G)
    (makeModel : G → M) (compressGraphDef : S → Nat) (a : ConvertArgs)
    (b1 b2 : Bool) (c : Option Nat) (frozenGraph : S) :
    (convertCommonProcessOptions { a with ignoreDefault := b1 } c).ignoreDefault = false ∧
    (convertCommonProcessOptions { a with ignoreDefault := b2 } c).ignoreDefault = false ∧
    convertCommon processTfGraph optimizeGraph makeModel compressGraphDef
        { a with ignoreDefault := b1 } frozenGraph =
      convertCommon processTfGraph optimizeGraph makeModel compressGraphDef
        { a with ignoreDefault := b2 } frozenGraph :=
  ⟨rfl, rfl, rfl⟩

theorem setAttr_input (n : Node) (k : String) (v : AttrValue) :
    (n.setAttr k v).input = n.input := rfl

theorem getAttr_setAttr (n : Node) (k : String) (v : AttrValue) :
    (n.setAttr k v).getAttr k = some v := by
  simp [Node.setAttr, Node.getAttr]

theorem input_swapFirstTwoInputs (m : Node) :
    (swapFirstTwoInputs m).input =
      match m.input with
      | a :: b :: rest => b :: a :: rest
      | l => l := by
  unfold swapFirstTwoInputs
  rcases m.input with _ | ⟨a, _ | ⟨b, rest⟩⟩ <;> rfl

theorem input_swap_setAttr (n : Node) (k : String) (v : AttrValue) :
    (swapFirstTwoInputs (n.setAttr k v)).input = (swapFirstTwoInputs n).input := by
  rw [input_swapFirstTwoInputs, input_swapFirstTwoInputs, setAttr_input]

/-- Counterexample for C10: on the rs4 target, a Mul whose first input is
a scalar constant with an empty recorded shape still gets its inputs
swapped — the rs4 workaround first promotes the shape to rank 1 — so the
claimed condition "both input shapes known and non-empty" does not govern
the swap. -/
theorem broadcastOp_swap_counterexample :
    shapeTruthy (bcGraph.getShape (bcMulNode.input.getD 0 "")) = false ∧
    (broadcastVersion4 bcGraph true bcMulNode).map Node.input = some ["x:0", "c:0"] ∧
    bcMulNode.input = ["c:0", "x:0"] := by
  refine ⟨by decide, by decide, by decide⟩

/-- C10 (amended): `BroadcastOp.version_4` always sets the broadcast
attribute — 1 when the recorded input shapes differ, 0 when they agree —
and, in both `version_4` and `version_7`, the inputs are swapped exactly
when the shapes differ, the node kind is Mul or Add, and the two shapes
after the rs4 adjustment (which promotes a falsy shape of a constant
input to rank 1 when the rs4 target is active) are truthy with the first
rank strictly smaller than the second. -/
theorem broadcastOp_spec (g : Graph) (rs4 : Bool) (n m4 m7 : Node)
    (s0 s1 : Option (List Int))
    (hs0 : adjustedShape g n rs4 0 (g.getShape (n.input.getD 0 "")) = some s0)
    (hs1 : adjustedShape g n rs4 1 (g.getShape (n.input.getD 1 "")) = some s1)
    (hm4 : broadcastVersion4 g rs4 n = some m4)
    (hm7 : broadcastVersion7 g rs4 n = some m7) :
    m4.getAttr "broadcast" =
      some (.aInt (if g.getShape (n.input.getD 0 "") = g.getShape (n.input.getD 1 "")
                   then 0 else 1)) ∧
    m4.input =
      (if g.getShape (n.input.getD 0 "") ≠ g.getShape (n.input.getD 1 "") ∧
          shapeTruthy s0 = true ∧ shapeTruthy s1 = true ∧ shapeLen s0 < shapeLen s1 ∧
          (n.type = "Mul" ∨ n.type = "Add")
       then (swapFirstTwoInputs n).input else n.input) ∧
    m7 =
      (if g.getShape (n.input.getD 0 "") ≠ g.getShape (n.input.getD 1 "") ∧
          shapeTruthy s0 = true ∧ shapeTruthy s1 = true ∧ shapeLen s0 < shapeLen s1 ∧
          (n.type = "Mul" ∨ n.type = "Add")
       then swapFirstTwoInputs n else n) := by
  by_cases heq : g.getShape (n.input.getD 0 "") = g.getShape (n.input.getD 1 "")
  · have e4 : broadcastVersion4 g rs4 n = some (n.setAttr "broadcast" (.aInt 0)) := by
      simp only [broadcastVersion4]
      rw [if_neg (fun hc => hc heq)]
    have e7 : broadcastVersion7 g rs4 n = some n := by
      simp only [broadcastVersion7]
      rw [if_neg (fun hc => hc heq)]
    rw [e4, Option.some.injEq] at hm4
    rw [e7, Option.some.injEq] at hm7
    subst hm4
    subst hm7
    refine ⟨by rw [getAttr_setAttr, if_pos heq], ?_, ?_⟩
    · rw [if_neg (fun hc => hc.1 heq), setAttr_input]
    · rw [if_neg (fun hc => hc.1 heq)]
  · have hguard : (shapeTruthy s0 && shapeTruthy s1 && decide (shapeLen s0 < shapeLen s1)
        && (n.type == "Mul" || n.type == "Add")) = true ↔
        (shapeTruthy s0 = true ∧ shapeTruthy s1 = true ∧ shapeLen s0 < shapeLen s1 ∧
         (n.type = "Mul" ∨ n.type = "Add")) := by
      simp [Bool.and_eq_true, Bool.or_eq_true, decide_eq_true_eq, and_assoc]
    simp only [broadcastVersion4] at hm4
    simp only [broadcastVersion7] at hm7
    rw [if_pos heq] at hm4 hm7
    simp only [hs0, hs1] at hm4 hm7
    by_cases hcond : shapeTruthy s0 = true ∧ shapeTruthy s1 = true ∧
        shapeLen s0 < shapeLen s1 ∧ (n.type = "Mul" ∨ n.type = "Add")
    · rw [if_pos (hguard.mpr hcond), Option.some.injEq] at hm4
      rw [if_pos (hguard.mpr hcond), Option.some.injEq] at hm7
      subst hm4
      subst hm7
      refine ⟨?_, ?_, ?_⟩
      · have h1 : (swapFirstTwoInputs (n.setAttr "broadcast" (.aInt 1))).getAttr "broadcast" =
            (n.setAttr "broadcast" (.aInt 1)).getAttr "broadcast" := by
          unfold swapFirstTwoInputs
          rcases (n.setAttr "broadcast" (AttrValue.aInt 1)).input with _ | ⟨a, _ | ⟨b, r⟩⟩ <;>
            rfl
        rw [h1, getAttr_setAttr, if_neg heq]
      · rw [if_pos ⟨heq, hcond⟩, input_swap_setAttr]
      · rw [if_pos ⟨heq, hcond⟩]
    · rw [if_neg (fun hg => hcond (hguard.mp hg)), Option.some.injEq] at hm4
      rw [if_neg (fun hg => hcond (hguard.mp hg)), Option.some.injEq] at hm7
      subst hm4
      subst hm7
      refine ⟨?_, ?_, ?_⟩
      · rw [getAttr_setAttr, if_neg heq]
      · rw [if_neg (fun hc => hcond hc.2), setAttr_input]
      · rw [if_neg (fun hc => hcond hc.2)]

/-- Witness for C10: the amended broadcast theorem applied at a concrete
Mul with ranks 1 and 2, with the resulting swap and attribute. -/
theorem broadcastOp_spec_witness :
    broadcastVersion4 bcRankGraph false bcMulNode = some bcMulSwapped4 ∧
    bcMulSwapped4.getAttr "broadcast" = some (.aInt 1) ∧
    bcMulSwapped7.input = ["x:0", "c:0"] := by
  have h := broadcastOp_spec bcRankGraph false bcMulNode bcMulSwapped4 bcMulSwapped7
      (some [2]) (some [2, 3]) (by decide) (by decide) (by decide) (by decide)
  have hcond : bcRankGraph.getShape (bcMulNode.input.getD 0 "") ≠
      bcRankGraph.getShape (bcMulNode.input.getD 1 "") := by decide
  refine ⟨by decide, ?_, by decide⟩
  have h1 := h.1
  rw [if_neg hcond] at h1
  exact h1

theorem pruneTableNode_never_err (g : Graph) (tn : Node) (e : String) :
    pruneTableNode g tn ≠ .err e := by
  unfold pruneTableNode
  cases h : tn.output[0]? with
  | none => simp
  | some t => simp

theorem pruneTableNode_ok_iff (g : Graph) (tn : Node) (t : String) (g2 : Graph)
    (ht : tn.output[0]? = some t) :
    pruneTableNode g tn = .ok g2 ↔
      g2 = (if (g.findOutputConsumers t).isEmpty then g.removeNode tn.name else g) := by
  unfold pruneTableNode
  rw [ht]
  constructor
  · intro h
    cases h
    rfl
  · intro h
    rw [h]

theorem findV8_err_shared (tables : InitTables) (g : Graph) (node tn0 tableNode : Node)
    (hin0 : nodeInput g node 0 = some tn0)
    (hwalk : walkIdentity g g.nodes.length tn0 = .found tableNode)
    (hsn : tableNode.sharedName = none) :
    lookupTableFindV8 tables g node =
      .err ("Could not determine table shared name for node " ++ node.name) := by
  simp only [lookupTableFindV8, hin0, hwalk, hsn]

theorem findV8_err_table (tables : InitTables) (g : Graph) (node tn0 tableNode : Node)
    (sn : String)
    (hin0 : nodeInput g node 0 = some tn0)
    (hwalk : walkIdentity g g.nodes.length tn0 = .found tableNode)
    (hsn : tableNode.sharedName = some sn)
    (htab : tablesGet tables sn = none) :
    lookupTableFindV8 tables g node =
      .err ("Initialized table " ++ sn ++ " for node " ++ node.name ++ " not found.") := by
  simp only [lookupTableFindV8, hin0, hwalk, hsn, htab]

theorem findV8_err_default (tables : InitTables) (g : Graph)
    (node tn0 tableNode defaultNode : Node) (sn : String) (ks : List String) (vs : List Int)
    (hin0 : nodeInput g node 0 = some tn0)
    (hwalk : walkIdentity g g.nodes.length tn0 = .found tableNode)
    (hsn : tableNode.sharedName = some sn)
    (htab : tablesGet tables sn = some (ks, vs))
    (hin2 : nodeInput g node 2 = some defaultNode)
    (hdc : defaultNode.isConst = false) :
    lookupTableFindV8 tables g node = .err "Default value of table lookup must be const." := by
  simp only [lookupTableFindV8, hin0, hwalk, hsn, htab, hin2, hdc, Bool.false_eq_true,
    if_false]

theorem findV8_err_dtype (tables : InitTables) (g : Graph)
    (node tn0 tableNode defaultNode : Node) (sn : String) (ks : List String) (vs : List Int)
    (defaultVal : TValue) (out0 in1 : String)
    (hin0 : nodeInput g node 0 = some tn0)
    (hwalk : walkIdentity g g.nodes.length tn0 = .found tableNode)
    (hsn : tableNode.sharedName = some sn)
    (htab : tablesGet tables sn = some (ks, vs))
    (hin2 : nodeInput g node 2 = some defaultNode)
    (hdc : defaultNode.isConst = true)
    (hdv : defaultNode.constValue = some defaultVal)
    (hout0 : node.output[0]? = some out0)
    (hin1t : node.input[1]? = some in1)
    (hbad : (g.getDtype out0 == some TensorProtoINT64 &&
             g.getDtype in1 == some TensorProtoSTRING) = false) :
    lookupTableFindV8 tables g node =
      .err "Only lookup tables of type string->int64 are currently supported." := by
  simp only [lookupTableFindV8, hin0, hwalk, hsn, htab, hin2, hdc, if_true, hdv, hout0,
    hin1t, hbad, Bool.false_eq_true, if_false]

theorem findV8_const_branch (tables : InitTables) (g : Graph)
    (node tn0 tableNode defaultNode keyNode : Node) (sn : String) (ks : List String)
    (vs : List Int) (defaultVal key : TValue) (out0 in1 : String)
    (hin0 : nodeInput g node 0 = some tn0)
    (hwalk : walkIdentity g g.nodes.length tn0 = .found tableNode)
    (hsn : tableNode.sharedName = some sn)
    (htab : tablesGet tables sn = some (ks, vs))
    (hin2 : nodeInput g node 2 = some defaultNode)
    (hdc : defaultNode.isConst = true)
    (hdv : defaultNode.constValue = some defaultVal)
    (hout0 : node.output[0]? = some out0)
    (hin1t : node.input[1]? = some in1)
    (hdt : g.getDtype out0 = some TensorProtoINT64)
    (hidt : g.getDtype in1 = some TensorProtoSTRING)
    (hin1 : nodeInput g node 1 = some keyNode)
    (hkc : keyNode.isConst = true)
    (hkv : keyNode.constValue = some key) :
    lookupTableFindV8 tables g node =
      pruneTableNode
        ((g.removeNode node.name).makeNode
          (foldedConstNode node (dictZipGet ks vs key defaultVal))
          [some []] [TensorProtoINT64]) tableNode := by
  simp only [lookupTableFindV8, hin0, hwalk, hsn, htab, hin2, hdc, if_true, hdv, hout0,
    hin1t, hdt, hidt, hin1, hkc, hkv, beq_self_eq_true, Bool.and_self]

theorem findV8_mapper_branch (tables : InitTables) (g : Graph)
    (node tn0 tableNode defaultNode keyNode : Node) (sn : String) (ks : List String)
    (vs : List Int) (defaultVal : TValue) (out0 in1 : String)
    (hin0 : nodeInput g node 0 = some tn0)
    (hwalk : walkIdentity g g.nodes.length tn0 = .found tableNode)
    (hsn : tableNode.sharedName = some sn)
    (htab : tablesGet tables sn = some (ks, vs))
    (hin2 : nodeInput g node 2 = some defaultNode)
    (hdc : defaultNode.isConst = true)
    (hdv : defaultNode.constValue = some defaultVal)
    (hout0 : node.output[0]? = some out0)
    (hin1t : node.input[1]? = some in1)
    (hdt : g.getDtype out0 = some TensorProtoINT64)
    (hidt : g.getDtype in1 = some TensorProtoSTRING)
    (hin1 : nodeInput g node 1 = some keyNode)
    (hkc : keyNode.isConst = false) :
    lookupTableFindV8 tables g node =
      pruneTableNode
        ((g.removeNode node.name).makeNode
          (categoryMapperNode node in1 ks vs defaultVal)
          [g.getShape out0] [TensorProtoINT64]) tableNode := by
  simp only [lookupTableFindV8, hin0, hwalk, hsn, htab, hin2, hdc, if_true, hdv, hout0,
    hin1t, hdt, hidt, hin1, hkc, beq_self_eq_true, Bool.and_self, Bool.false_eq_true,
    if_false]

theorem sizeV1_err_shared (tables : InitTables) (g : Graph) (node tn0 tableNode : Node)
    (hin0 : nodeInput g node 0 = some tn0)
    (hwalk : walkIdentity g g.nodes.length tn0 = .found tableNode)
    (hsn : tableNode.sharedName = none) :
    lookupTableSizeV1 tables g node =
      .err ("Could not determine table shared name for node " ++ node.name) := by
  simp only [lookupTableSizeV1, hin0, hwalk, hsn]

theorem sizeV1_err_table (tables : InitTables) (g : Graph) (node tn0 tableNode : Node)
    (sn : String)
    (hin0 : nodeInput g node 0 = some tn0)
    (hwalk : walkIdentity g g.nodes.length tn0 = .found tableNode)
    (hsn : tableNode.sharedName = some sn)
    (htab : tablesGet tables sn = none) :
    lookupTableSizeV1 tables g node =
      .err ("Initialized table " ++ sn ++ " for node " ++ node.name ++ " not found.") := by
  simp only [lookupTableSizeV1, hin0, hwalk, hsn, htab]

theorem sizeV1_main (tables : InitTables) (g : Graph) (node tn0 tableNode : Node)
    (sn : String) (ks : List String) (vs : List Int) (out0 : String)
    (hin0 : nodeInput g node 0 = some tn0)
    (hwalk : walkIdentity g g.nodes.length tn0 = .found tableNode)
    (hsn : tableNode.sharedName = some sn)
    (htab : tablesGet tables sn = some (ks, vs))
    (hout0 : node.output[0]? = some out0) :
    lookupTableSizeV1 tables g node =
      pruneTableNode
        (((g.removeNode node.name).makeConst node.name (.int ks.length)).1.replaceAllInputs
          out0 (node.name ++ ":0")) tableNode := by
  simp only [lookupTableSizeV1, hin0, hwalk, hsn, htab, hout0]
  rfl

theorem crash_ne_ok (g2 : Graph) : HResult.crash ≠ HResult.ok g2 := by
  intro h
  exact HResult.noConfusion h

theorem pruneTableNode_ok_cases (gp : Graph) (tn : Node) (g2 : Graph)
    (hok : pruneTableNode gp tn = .ok g2) :
    ∃ t, tn.output[0]? = some t ∧
      g2 = (if (gp.findOutputConsumers t).isEmpty then gp.removeNode tn.name else gp) := by
  cases htno : tn.output[0]? with
  | none =>
    unfold pruneTableNode at hok
    rw [htno] at hok
    exact absurd hok (crash_ne_ok g2)
  | some t =>
    exact ⟨t, rfl, ((pruneTableNode_ok_iff gp tn t g2 htno).mp hok)⟩

theorem mem_prune_result (gp : Graph) (tn : Node) (g2 : Graph) (m : Node)
    (hok : pruneTableNode gp tn = .ok g2) (hm : m ∈ gp.nodes) (hname : m.name ≠ tn.name) :
    m ∈ g2.nodes := by
  obtain ⟨t, _, hg2⟩ := pruneTableNode_ok_cases gp tn g2 hok
  by_cases hempty : (gp.findOutputConsumers t).isEmpty
  · rw [hg2, if_pos hempty]
    exact mem_removeNode.mpr ⟨hm, hname⟩
  · rw [hg2, if_neg hempty]
    exact hm

theorem prune_result_subset (gp : Graph) (tn : Node) (g2 : Graph) (m : Node)
    (hok : pruneTableNode gp tn = .ok g2) (hm : m ∈ g2.nodes) : m ∈ gp.nodes := by
  obtain ⟨t, _, hg2⟩ := pruneTableNode_ok_cases gp tn g2 hok
  by_cases hempty : (gp.findOutputConsumers t).isEmpty
  · rw [hg2, if_pos hempty] at hm
    exact (mem_removeNode.mp hm).1
  · rw [hg2, if_neg hempty] at hm
    exact hm

/-- C1: with a compile-time constant key, `LookupTableFind.version_8`
removes the lookup node and replaces it by a single constant node reusing
the name and the original output identifiers, whose value is the table
value bound to the key — or the constant default when the key is absent
(on the table mapping "a" to 1 and "b" to 2 with default 0, key "b" gives
2 and key "z" gives 0); with a non-constant key it instead emits a single
CategoryMapper node in the ai.onnx.ml domain carrying the full key and
value sequences and the default as attributes. -/
theorem lookupTableFindV8_folding (tables : InitTables) (g : Graph)
    (node tn0 tableNode defaultNode keyNode : Node) (sn : String) (ks : List String)
    (vs : List Int) (defaultVal : TValue) (out0 in1 : String)
    (hin0 : nodeInput g node 0 = some tn0)
    (hwalk : walkIdentity g g.nodes.length tn0 = .found tableNode)
    (hsn : tableNode.sharedName = some sn)
    (htab : tablesGet tables sn = some (ks, vs))
    (hin2 : nodeInput g node 2 = some defaultNode)
    (hdc : defaultNode.isConst = true)
    (hdv : defaultNode.constValue = some defaultVal)
    (hout0 : node.output[0]? = some out0)
    (hin1t : node.input[1]? = some in1)
    (hdt : g.getDtype out0 = some TensorProtoINT64)
    (hidt : g.getDtype in1 = some TensorProtoSTRING)
    (hin1 : nodeInput g node 1 = some keyNode)
    (hname : tableNode.name ≠ node.name) :
    (∀ key, keyNode.isConst = true → keyNode.constValue = some key →
       lookupTableFindV8 tables g node =
         pruneTableNode
           ((g.removeNode node.name).makeNode
             (foldedConstNode node (dictZipGet ks vs key defaultVal))
             [some []] [TensorProtoINT64]) tableNode ∧
       ∀ g2, lookupTableFindV8 tables g node = .ok g2 →
         foldedConstNode node (dictZipGet ks vs key defaultVal) ∈ g2.nodes ∧
         ∀ m ∈ g2.nodes, m.name = node.name →
           m = foldedConstNode node (dictZipGet ks vs key defaultVal)) ∧
    (keyNode.isConst = false →
       lookupTableFindV8 tables g node =
         pruneTableNode
           ((g.removeNode node.name).makeNode
             (categoryMapperNode node in1 ks vs defaultVal)
             [g.getShape out0] [TensorProtoINT64]) tableNode ∧
       ∀ g2, lookupTableFindV8 tables g node = .ok g2 →
         categoryMapperNode node in1 ks vs defaultVal ∈ g2.nodes ∧
         ∀ m ∈ g2.nodes, m.name = node.name → m = categoryMapperNode node in1 ks vs defaultVal) ∧
    dictZipGet ["a", "b"] [1, 2] (.str "b") (.int 0) = .int 2 ∧
    dictZipGet ["a", "b"] [1, 2] (.str "z") (.int 0) = .int 0 := by
  refine ⟨?_, ?_, by decide, by decide⟩
  · intro key hkc hkv
    have hmain := findV8_const_branch tables g node tn0 tableNode defaultNode keyNode sn ks
      vs defaultVal key out0 in1 hin0 hwalk hsn htab hin2 hdc hdv hout0 hin1t hdt hidt
      hin1 hkc hkv
    refine ⟨hmain, ?_⟩
    intro g2 hok
    rw [hmain] at hok
    set fc := foldedConstNode node (dictZipGet ks vs key defaultVal) with hfc
    set gmid := (g.removeNode node.name).makeNode fc [some []] [TensorProtoINT64] with hgmid
    have hfcmem : fc ∈ gmid.nodes := by
      rw [hgmid, nodes_makeNode]
      exact List.mem_append_right _ (by simp)
    have hfcname : fc.name = node.name := rfl
    constructor
    · refine mem_prune_result gmid tableNode g2 fc hok hfcmem ?_
      rw [hfcname]
      exact Ne.symm hname
    · intro m hm hmname
      have hmmid : m ∈ gmid.nodes := prune_result_subset gmid tableNode g2 m hok hm
      rw [hgmid, nodes_makeNode] at hmmid
      rcases List.mem_append.mp hmmid with hleft | hright
      · exact absurd hmname (mem_removeNode.mp hleft).2
      · simpa using hright
  · intro hkc
    have hmain := findV8_mapper_branch tables g node tn0 tableNode defaultNode keyNode sn ks
      vs defaultVal out0 in1 hin0 hwalk hsn htab hin2 hdc hdv hout0 hin1t hdt hidt hin1 hkc
    refine ⟨hmain, ?_⟩
    intro g2 hok
    rw [hmain] at hok
    set cm := categoryMapperNode node in1 ks vs defaultVal with hcm
    set gmid := (g.removeNode node.name).makeNode cm [g.getShape out0] [TensorProtoINT64]
      with hgmid
    have hcmmem : cm ∈ gmid.nodes := by
      rw [hgmid, nodes_makeNode]
      exact List.mem_append_right _ (by simp)
    have hcmname : cm.name = node.name := rfl
    constructor
    · refine mem_prune_result gmid tableNode g2 cm hok hcmmem ?_
      rw [hcmname]
      exact Ne.symm hname
    · intro m hm hmname
      have hmmid : m ∈ gmid.nodes := prune_result_subset gmid tableNode g2 m hok hm
      rw [hgmid, nodes_makeNode] at hmmid
      rcases List.mem_append.mp hmmid with hleft | hright
      · exact absurd hmname (mem_removeNode.mp hleft).2
      · simpa using hright

/-- Witness for C1: the folding theorem applied at the concrete lookup of
constant key "b" in the table mapping "a" to 1 and "b" to 2. -/
theorem lookupTableFindV8_folding_witness :
    lookupTableFindV8 exTables exFindGraph exLookupNode =
      pruneTableNode
        ((exFindGraph.removeNode "lookup").makeNode
          (foldedConstNode exLookupNode (.int 2)) [some []] [TensorProtoINT64])
        exTableNode := by
  have h := lookupTableFindV8_folding exTables exFindGraph exLookupNode exIdentityNode
    exTableNode exDefaultNode exKeyNode "t1" ["a", "b"] [1, 2] (.int 0) "lookup:0" "key:0"
    (by decide) (by decide) (by decide) (by decide) (by decide) (by decide) (by decide)
    (by decide) (by decide) (by decide) (by decide) (by decide) (by decide)
  exact (h.1 (.str "b") (by decide) (by decide)).1

/-- C9: `LookupTableFind.version_8` supports only string-to-int64 tables:
whenever the output dtype is not INT64 or the key-input dtype is not
STRING, it raises the error "Only lookup tables of type string->int64 are
currently supported." — and, as every check precedes the first graph
mutation, it does so before mutating the graph. -/
theorem lookupTableFindV8_dtype_guard (tables : InitTables) (g : Graph)
    (node tn0 tableNode defaultNode : Node) (sn : String) (ks : List String)
    (vs : List Int) (defaultVal : TValue) (out0 in1 : String)
    (hin0 : nodeInput g node 0 = some tn0)
    (hwalk : walkIdentity g g.nodes.length tn0 = .found tableNode)
    (hsn : tableNode.sharedName = some sn)
    (htab : tablesGet tables sn = some (ks, vs))
    (hin2 : nodeInput g node 2 = some defaultNode)
    (hdc : defaultNode.isConst = true)
    (hdv : defaultNode.constValue = some defaultVal)
    (hout0 : node.output[0]? = some out0)
    (hin1t : node.input[1]? = some in1)
    (hbad : g.getDtype out0 ≠ some TensorProtoINT64 ∨
            g.getDtype in1 ≠ some TensorProtoSTRING) :
    lookupTableFindV8 tables g node =
      .err "Only lookup tables of type string->int64 are currently supported." := by
  have hb : (g.getDtype out0 == some TensorProtoINT64 &&
      g.getDtype in1 == some TensorProtoSTRING) = false := by
    rcases hbad with h | h
    · have hf : (g.getDtype out0 == some TensorProtoINT64) = false :=
        beq_eq_false_iff_ne.mpr h
      rw [hf, Bool.false_and]
    · have hf : (g.getDtype in1 == some TensorProtoSTRING) = false :=
        beq_eq_false_iff_ne.mpr h
      rw [hf, Bool.and_false]
  exact findV8_err_dtype tables g node tn0 tableNode defaultNode sn ks vs defaultVal out0
    in1 hin0 hwalk hsn htab hin2 hdc hdv hout0 hin1t hb

/-- Witness for C9: a lookup whose key tensor is typed FLOAT raises the
dtype error. -/
theorem lookupTableFindV8_dtype_guard_witness :
    exFindBadKeyDtypeGraph.getDtype "key:0" = some 1 ∧
    lookupTableFindV8 exTables exFindBadKeyDtypeGraph exLookupNode =
      .err "Only lookup tables of type string->int64 are currently supported." := by
  refine ⟨by decide, ?_⟩
  exact lookupTableFindV8_dtype_guard exTables exFindBadKeyDtypeGraph exLookupNode
    exIdentityNode exTableNode exDefaultNode "t1" ["a", "b"] [1, 2] (.int 0) "lookup:0"
    "key:0" (by decide) (by decide) (by decide) (by decide) (by decide) (by decide)
    (by decide) (by decide) (by decide) (Or.inr (by decide))

/-- Counterexample for C5: a LookupTableFindV2 node whose table shared
name is determined, whose table is present in the side data and whose
default-value input is constant still raises a fatal error — the dtype
precondition (output INT64, key input STRING) is a fourth error condition
that the claimed "if and only if" omits. -/
theorem lookupHandlers_error_counterexample :
    nodeInput exFindBadDtypeGraph exLookupNode 0 = some exIdentityNode ∧
    walkIdentity exFindBadDtypeGraph exFindBadDtypeGraph.nodes.length exIdentityNode =
      .found exTableNode ∧
    exTableNode.sharedName = some "t1" ∧
    tablesGet exTables "t1" ≠ none ∧
    exDefaultNode.isConst = true ∧
    lookupTableFindV8 exTables exFindBadDtypeGraph exLookupNode =
      .err "Only lookup tables of type string->int64 are currently supported." := by
  refine ⟨by decide, by decide, by decide, by decide, by decide, by decide⟩

/-- C5 (amended): the two handlers raise a `make_sure` error exactly when
the shared name cannot be determined, the named table is absent from the
side data, or — for LookupTableFindV2 only — the default-value input is
not constant or the table dtypes are not string to int64; only the first
two messages name the offending node, and every check precedes the first
graph mutation, so an erroring run leaves the graph unchanged. -/
theorem lookupHandlers_error_iff (tables : InitTables) (g : Graph)
    (node tn0 tableNode defaultNode keyNode : Node) (out0 in1 : String)
    (hin0 : nodeInput g node 0 = some tn0)
    (hwalk : walkIdentity g g.nodes.length tn0 = .found tableNode)
    (hin2 : nodeInput g node 2 = some defaultNode)
    (hout0 : node.output[0]? = some out0)
    (hin1t : node.input[1]? = some in1)
    (hin1 : nodeInput g node 1 = some keyNode)
    (gs : Graph) (nodeS tn0S tableNodeS : Node) (out0S : String)
    (hin0S : nodeInput gs nodeS 0 = some tn0S)
    (hwalkS : walkIdentity gs gs.nodes.length tn0S = .found tableNodeS)
    (hout0S : nodeS.output[0]? = some out0S) :
    (tableNode.sharedName = none →
       lookupTableFindV8 tables g node =
         .err ("Could not determine table shared name for node " ++ node.name)) ∧
    (∀ sn, tableNode.sharedName = some sn → tablesGet tables sn = none →
       lookupTableFindV8 tables g node =
         .err ("Initialized table " ++ sn ++ " for node " ++ node.name ++ " not found.")) ∧
    (∀ sn ks vs, tableNode.sharedName = some sn → tablesGet tables sn = some (ks, vs) →
       defaultNode.isConst = false →
       lookupTableFindV8 tables g node =
         .err "Default value of table lookup must be const.") ∧
    (∀ sn ks vs dv, tableNode.sharedName = some sn → tablesGet tables sn = some (ks, vs) →
       defaultNode.isConst = true → defaultNode.constValue = some dv →
       ¬(g.getDtype out0 = some TensorProtoINT64 ∧ g.getDtype in1 = some TensorProtoSTRING) →
       lookupTableFindV8 tables g node =
         .err "Only lookup tables of type string->int64 are currently supported.") ∧
    (∀ sn ks vs dv, tableNode.sharedName = some sn → tablesGet tables sn = some (ks, vs) →
       defaultNode.isConst = true → defaultNode.constValue = some dv →
       g.getDtype out0 = some TensorProtoINT64 → g.getDtype in1 = some TensorProtoSTRING →
       ∀ e, lookupTableFindV8 tables g node ≠ .err e) ∧
    (tableNodeS.sharedName = none →
       lookupTableSizeV1 tables gs nodeS =
         .err ("Could not determine table shared name for node " ++ nodeS.name)) ∧
    (∀ sn, tableNodeS.sharedName = some sn → tablesGet tables sn = none →
       lookupTableSizeV1 tables gs nodeS =
         .err ("Initialized table " ++ sn ++ " for node " ++ nodeS.name ++ " not found.")) ∧
    (∀ sn ks vs, tableNodeS.sharedName = some sn → tablesGet tables sn = some (ks, vs) →
       ∀ e, lookupTableSizeV1 tables gs nodeS ≠ .err e) := by
  refine ⟨?_, ?_, ?_, ?_, ?_, ?_, ?_, ?_⟩
  · intro hsn
    exact findV8_err_shared tables g node tn0 tableNode hin0 hwalk hsn
  · intro sn hsn htab
    exact findV8_err_table tables g node tn0 tableNode sn hin0 hwalk hsn htab
  · intro sn ks vs hsn htab hdc
    exact findV8_err_default tables g node tn0 tableNode defaultNode sn ks vs hin0 hwalk
      hsn htab hin2 hdc
  · intro sn ks vs dv hsn htab hdc hdv hbad
    have hb : (g.getDtype out0 == some TensorProtoINT64 &&
        g.getDtype in1 == some TensorProtoSTRING) = false := by
      by_cases h1 : g.getDtype out0 = some TensorProtoINT64
      · have h2 : g.getDtype in1 ≠ some TensorProtoSTRING := fun h2 => hbad ⟨h1, h2⟩
        rw [beq_eq_false_iff_ne.mpr h2, Bool.and_false]
      · rw [beq_eq_false_iff_ne.mpr h1, Bool.false_and]
    exact findV8_err_dtype tables g node tn0 tableNode defaultNode sn ks vs dv out0 in1
      hin0 hwalk hsn htab hin2 hdc hdv hout0 hin1t hb
  · intro sn ks vs dv hsn htab hdc hdv hdt hidt e
    cases hkc : keyNode.isConst with
    | true =>
      cases hkv : keyNode.constValue with
      | none =>
        have hcrash : lookupTableFindV8 tables g node = .crash := by
          simp only [lookupTableFindV8, hin0, hwalk, hsn, htab, hin2, hdc, if_true, hdv,
            hout0, hin1t, hdt, hidt, hin1, hkc, hkv, beq_self_eq_true, Bool.and_self]
        rw [hcrash]
        simp
      | some kv =>
        rw [findV8_const_branch tables g node tn0 tableNode defaultNode keyNode sn ks vs
          dv kv out0 in1 hin0 hwalk hsn htab hin2 hdc hdv hout0 hin1t hdt hidt hin1 hkc hkv]
        exact pruneTableNode_never_err _ _ e
    | false =>
      rw [findV8_mapper_branch tables g node tn0 tableNode defaultNode keyNode sn ks vs dv
        out0 in1 hin0 hwalk hsn htab hin2 hdc hdv hout0 hin1t hdt hidt hin1 hkc]
      exact pruneTableNode_never_err _ _ e
  · intro hsn
    exact sizeV1_err_shared tables gs nodeS tn0S tableNodeS hin0S hwalkS hsn
  · intro sn hsn htab
    exact sizeV1_err_table tables gs nodeS tn0S tableNodeS sn hin0S hwalkS hsn htab
  · intro sn ks vs hsn htab e
    rw [sizeV1_main tables gs nodeS tn0S tableNodeS sn ks vs out0S hin0S hwalkS hsn htab
      hout0S]
    exact pruneTableNode_never_err _ _ e

/-- Witness for C5: the amended error characterization applied at a
lookup whose referenced table is absent from the side data. -/
theorem lookupHandlers_error_iff_witness :
    lookupTableFindV8 [] exFindGraph exLookupNode =
      .err ("Initialized table " ++ "t1" ++ " for node " ++ exLookupNode.name ++
        " not found.") := by
  have h := lookupHandlers_error_iff [] exFindGraph exLookupNode exIdentityNode
    exTableNode exDefaultNode exKeyNode "lookup:0" "key:0" (by decide) (by decide)
    (by decide) (by decide) (by decide) (by decide) exSizeGraph exSizeNode exIdentityNode
    exTableNode "size:0" (by decide) (by decide) (by decide)
  exact h.2.1 "t1" (by decide) (by decide)

theorem nodes_makeConst (g : Graph) (name : String) (v : TValue) :
    ((g.makeConst name v).1).nodes = g.nodes ++ [constNodeOf name v] := by
  simp [Graph.makeConst, nodes_makeNode]

theorem nodes_replaceAllInputs (g : Graph) (o nw : String) :
    (g.replaceAllInputs o nw).nodes =
      g.nodes.map (fun m =>
        { m with input := m.input.map (fun t => if t == o then nw else t) }) := rfl

theorem mem_input_replaced (o nw : String) (l : List String) (h : o ∈ l) :
    nw ∈ l.map (fun t => if t == o then nw else t) :=
  List.mem_map.mpr ⟨o, h, by simp⟩

theorem not_mem_input_replaced (o nw : String) (hne : o ≠ nw) (l : List String) :
    o ∉ l.map (fun t => if t == o then nw else t) := by
  intro hmem
  rcases List.mem_map.mp hmem with ⟨t, ht, heq⟩
  by_cases hto : (t == o) = true
  · rw [if_pos hto] at heq
    exact hne heq.symm
  · rw [if_neg hto] at heq
    exact absurd heq (by simpa using hto)

/-- C6: `LookupTableSize.version_1` removes the size node, creates a
constant int64 scalar holding the table's key count, and rewires every
consumer of the original size output to the constant's output via
`replace_all_inputs`: afterwards no node references the old tensor (when
it differs from the new one) and each former consumer references the new
constant's output. -/
theorem lookupTableSizeV1_folds (tables : InitTables) (g : Graph)
    (node tn0 tableNode : Node) (sn : String) (ks : List String) (vs : List Int)
    (out0 : String)
    (hin0 : nodeInput g node 0 = some tn0)
    (hwalk : walkIdentity g g.nodes.length tn0 = .found tableNode)
    (hsn : tableNode.sharedName = some sn)
    (htab : tablesGet tables sn = some (ks, vs))
    (hout0 : node.output[0]? = some out0)
    (hname : tableNode.name ≠ node.name) :
    lookupTableSizeV1 tables g node =
      pruneTableNode
        (((g.removeNode node.name).makeConst node.name (.int ks.length)).1.replaceAllInputs
          out0 (node.name ++ ":0")) tableNode ∧
    ∀ g2, lookupTableSizeV1 tables g node = .ok g2 →
      constNodeOf node.name (.int ks.length) ∈ g2.nodes ∧
      (∀ m ∈ g2.nodes, m.name = node.name → m = constNodeOf node.name (.int ks.length)) ∧
      (∀ m ∈ g2.nodes, out0 ≠ node.name ++ ":0" → out0 ∉ m.input) ∧
      (∀ n2 ∈ g.nodes, n2.name ≠ node.name → n2.name ≠ tableNode.name → out0 ∈ n2.input →
         ∃ n3 ∈ g2.nodes, n3.name = n2.name ∧ (node.name ++ ":0") ∈ n3.input) := by
  have hmain := sizeV1_main tables g node tn0 tableNode sn ks vs out0 hin0 hwalk hsn htab
    hout0
  refine ⟨hmain, ?_⟩
  intro g2 hok
  rw [hmain] at hok
  set nw := node.name ++ ":0" with hnw
  set fc := constNodeOf node.name (.int ks.length) with hfc
  set gmid := ((g.removeNode node.name).makeConst node.name
    (.int ks.length)).1.replaceAllInputs out0 nw with hgmid
  have hnodes : gmid.nodes = ((g.removeNode node.name).nodes ++ [fc]).map (fun m =>
      { m with input := m.input.map (fun t => if t == out0 then nw else t) }) := by
    rw [hgmid, nodes_replaceAllInputs, nodes_makeConst]
  have hreplfc : (fun m : Node =>
      { m with input := m.input.map (fun t => if t == out0 then nw else t) }) fc = fc := rfl
  have hfcname : fc.name = node.name := rfl
  have hfcmem : fc ∈ gmid.nodes := by
    rw [hnodes]
    exact List.mem_map.mpr ⟨fc, List.mem_append_right _ (by simp), hreplfc⟩
  refine ⟨?_, ?_, ?_, ?_⟩
  · refine mem_prune_result gmid tableNode g2 fc hok hfcmem ?_
    rw [hfcname]
    exact Ne.symm hname
  · intro m hm hmname
    have hmmid : m ∈ gmid.nodes := prune_result_subset gmid tableNode g2 m hok hm
    rw [hnodes] at hmmid
    rcases List.mem_map.mp hmmid with ⟨m0, hm0, hrepl⟩
    rcases List.mem_append.mp hm0 with hleft | hright
    · have hm0name : m.name = m0.name := by rw [← hrepl]
      rw [hm0name] at hmname
      exact absurd hmname (mem_removeNode.mp hleft).2
    · have : m0 = fc := by simpa using hright
      rw [← hrepl, this]
      exact hreplfc
  · intro m hm hne
    have hmmid : m ∈ gmid.nodes := prune_result_subset gmid tableNode g2 m hok hm
    rw [hnodes] at hmmid
    rcases List.mem_map.mp hmmid with ⟨m0, _, hrepl⟩
    rw [← hrepl]
    exact not_mem_input_replaced out0 nw hne m0.input
  · intro n2 hn2 hne1 hne2 hcons
    set n3 := (fun m : Node =>
      { m with input := m.input.map (fun t => if t == out0 then nw else t) }) n2 with hn3
    have hn3mem : n3 ∈ gmid.nodes := by
      rw [hnodes]
      exact List.mem_map.mpr ⟨n2, List.mem_append_left _ (mem_removeNode.mpr ⟨hn2, hne1⟩),
        rfl⟩
    have hn3name : n3.name = n2.name := rfl
    refine ⟨n3, ?_, hn3name, ?_⟩
    · refine mem_prune_result gmid tableNode g2 n3 hok hn3mem ?_
      rw [hn3name]
      exact hne2
    · exact mem_input_replaced out0 nw n2.input hcons

/-- Witness for C6: the table-size folding theorem applied at the
concrete two-key table, with the resulting size constant. -/
theorem lookupTableSizeV1_folds_witness :
    lookupTableSizeV1 exTables exSizeGraph exSizeNode =
      pruneTableNode
        (((exSizeGraph.removeNode "size").makeConst "size" (.int 2)).1.replaceAllInputs
          "size:0" ("size" ++ ":0")) exTableNode := by
  have h := lookupTableSizeV1_folds exTables exSizeGraph exSizeNode exIdentityNode
    exTableNode "t1" ["a", "b"] [1, 2] "size:0" (by decide) (by decide) (by decide)
    (by decide) (by decide) (by decide)
  exact h.1

/-- C7: after either lookup handler converts its node, the cleanup step
removes the table-producing node exactly when `find_output_consumers`
reports zero remaining consumers of its output, leaves it in place
otherwise, and removes no other node; both handlers end in exactly this
cleanup. -/
theorem tableNode_pruned_iff_unconsumed (tables : InitTables) (g : Graph)
    (node tn0 tableNode defaultNode keyNode : Node) (sn : String) (ks : List String)
    (vs : List Int) (defaultVal : TValue) (out0 in1 : String)
    (hin0 : nodeInput g node 0 = some tn0)
    (hwalk : walkIdentity g g.nodes.length tn0 = .found tableNode)
    (hsn : tableNode.sharedName = some sn)
    (htab : tablesGet tables sn = some (ks, vs))
    (hin2 : nodeInput g node 2 = some defaultNode)
    (hdc : defaultNode.isConst = true)
    (hdv : defaultNode.constValue = some defaultVal)
    (hout0 : node.output[0]? = some out0)
    (hin1t : node.input[1]? = some in1)
    (hdt : g.getDtype out0 = some TensorProtoINT64)
    (hidt : g.getDtype in1 = some TensorProtoSTRING)
    (hin1 : nodeInput g node 1 = some keyNode)
    (hkcv : keyNode.isConst = true → ∃ kv, keyNode.constValue = some kv)
    (gs : Graph) (nodeS tn0S tableNodeS : Node) (snS : String) (ksS : List String)
    (vsS : List Int) (out0S : String)
    (hin0S : nodeInput gs nodeS 0 = some tn0S)
    (hwalkS : walkIdentity gs gs.nodes.length tn0S = .found tableNodeS)
    (hsnS : tableNodeS.sharedName = some snS)
    (htabS : tablesGet tables snS = some (ksS, vsS))
    (hout0S : nodeS.output[0]? = some out0S) :
    (∀ (gp : Graph) (tn : Node) (t : String) (gq : Graph),
       tn.output[0]? = some t → pruneTableNode gp tn = .ok gq →
       ((gp.findOutputConsumers t).isEmpty = true →
          gq = gp.removeNode tn.name ∧
          (∀ n ∈ gp.nodes, n.name ≠ tn.name → n ∈ gq.nodes) ∧
          ∀ n ∈ gq.nodes, n.name ≠ tn.name) ∧
       ((gp.findOutputConsumers t).isEmpty = false → gq = gp)) ∧
    (∃ gmid, lookupTableFindV8 tables g node = pruneTableNode gmid tableNode) ∧
    (∃ gmidS, lookupTableSizeV1 tables gs nodeS = pruneTableNode gmidS tableNodeS) := by
  refine ⟨?_, ?_, ?_⟩
  · intro gp tn t gq ht hok
    have hg := (pruneTableNode_ok_iff gp tn t gq ht).mp hok
    constructor
    · intro hempty
      rw [hg, if_pos hempty]
      exact ⟨rfl, fun n hn hne => mem_removeNode.mpr ⟨hn, hne⟩,
        fun n hn => (mem_removeNode.mp hn).2⟩
    · intro hempty
      rw [hg, if_neg (by simp [hempty])]
  · cases hkc : keyNode.isConst with
    | true =>
      obtain ⟨kv, hkv⟩ := hkcv hkc
      exact ⟨_, findV8_const_branch tables g node tn0 tableNode defaultNode keyNode sn ks
        vs defaultVal kv out0 in1 hin0 hwalk hsn htab hin2 hdc hdv hout0 hin1t hdt hidt
        hin1 hkc hkv⟩
    | false =>
      exact ⟨_, findV8_mapper_branch tables g node tn0 tableNode defaultNode keyNode sn ks
        vs defaultVal out0 in1 hin0 hwalk hsn htab hin2 hdc hdv hout0 hin1t hdt hidt hin1
        hkc⟩
  · exact ⟨_, sizeV1_main tables gs nodeS tn0S tableNodeS snS ksS vsS out0S hin0S hwalkS
      hsnS htabS hout0S⟩

/-- Witness for C7: the cleanup theorem applied at a post-conversion
graph where the table resource has no remaining consumer, so the table
node is removed and nothing else is. -/
theorem tableNode_pruned_iff_unconsumed_witness :
    pruneTableNode exAfterSizeGraph exTableNode = .ok (exAfterSizeGraph.removeNode "table") ∧
    (exAfterSizeGraph.findOutputConsumers "table:0").isEmpty = true ∧
    ∀ n ∈ (exAfterSizeGraph.removeNode "table").nodes, n.name ≠ exTableNode.name := by
  have h := tableNode_pruned_iff_unconsumed exTables exFindGraph exLookupNode
    exIdentityNode exTableNode exDefaultNode exKeyNode "t1" ["a", "b"] [1, 2] (.int 0)
    "lookup:0" "key:0" (by decide) (by decide) (by decide) (by decide) (by decide)
    (by decide) (by decide) (by decide) (by decide) (by decide) (by decide) (by decide)
    (fun _ => ⟨.str "b", by decide⟩) exSizeGraph exSizeNode exIdentityNode exTableNode
    "t1" ["a", "b"] [1, 2] "size:0" (by decide) (by decide) (by decide) (by decide)
    (by decide)
  have ha := h.1 exAfterSizeGraph exTableNode "table:0" (exAfterSizeGraph.removeNode "table")
    (by decide) (by decide)
  exact ⟨by decide, by decide, (ha.1 (by decide)).2.2⟩
